import Mathlib

/-!
Shallow embedding of the Infineon OPTIGA Trust X PKCS#11 PAL
(`lib/pkcs11/portable/infineon/optiga_trust_x/aws_pkcs11_pal.c`).

Byte buffers are `List Nat` (each element one byte value); the C
`long` values produced by `strtol` are `Int`; the device command
stream issued to the OPTIGA library is recorded as a `List DeviceCmd`.
The four `pkcs11configLABEL_*` macros live in a configuration header
outside the sources, so the embedding is parameterised by a
`PALConfig` carrying the four label byte strings (each including its
terminating NUL byte, since the C code compares `sizeof(literal)`
bytes).
-/

namespace OptigaPAL

/-- `pkcs11OBJECT_CERTIFICATE_MAX_SIZE` from the source. -/
def pkcs11OBJECT_CERTIFICATE_MAX_SIZE : Nat := 2048

/-- `USHRT_MAX` from `<limits.h>`, as the C `long` it is compared with. -/
def USHRT_MAX : Int := 65535

/-- `OPTIGA_LIB_SUCCESS` status code of the OPTIGA host library. -/
def OPTIGA_LIB_SUCCESS : Nat := 0

/-- PKCS#11 `CKR_OK`. -/
def CKR_OK : Nat := 0

/-- PKCS#11 `CKR_KEY_HANDLE_INVALID` (0x60). -/
def CKR_KEY_HANDLE_INVALID : Nat := 96

/-- PKCS#11 `CK_FALSE`. -/
def CK_FALSE : Nat := 0

/-- `enum eObjectHandles`: `eInvalidHandle = 0`. -/
def eInvalidHandle : Nat := 0

/-- `enum eObjectHandles`: `eAwsDevicePrivateKey = 1`. -/
def eAwsDevicePrivateKey : Nat := 1

/-- `enum eObjectHandles`: `eAwsDevicePublicKey = 2`. -/
def eAwsDevicePublicKey : Nat := 2

/-- `enum eObjectHandles`: `eAwsDeviceCertificate = 3`. -/
def eAwsDeviceCertificate : Nat := 3

/-- `enum eObjectHandles`: `eAwsCodeSigningKey = 4`. -/
def eAwsCodeSigningKey : Nat := 4

/-- One raw command issued to the OPTIGA access layer:
`optiga_util_write_data(oid, ERASE_AND_WRITE, offset, data, len)` or
`optiga_util_read_data(oid, offset, buf, pLen)` (recording the buffer
length handed in). -/
inductive DeviceCmd where
  | write (oid : Nat) (offset : Nat) (data : List Nat) (len : Nat)
  | read (oid : Nat) (offset : Nat) (bufLen : Nat)
deriving DecidableEq

/-- Value of one ASCII byte as a hexadecimal digit, if it is one. -/
def hexDigitVal (c : Nat) : Option Nat :=
  if 48 ≤ c ∧ c ≤ 57 then some (c - 48)
  else if 65 ≤ c ∧ c ≤ 70 then some (c - 55)
  else if 97 ≤ c ∧ c ≤ 102 then some (c - 87)
  else none

/-- Accumulate leading hexadecimal digits, stopping at the first
non-digit byte (in the PAL the terminating NUL of the label string). -/
def hexDigitsVal : List Nat → Nat → Nat
  | [], acc => acc
  | c :: rest, acc =>
    match hexDigitVal c with
    | some d => hexDigitsVal rest (acc * 16 + d)
    | none => acc

/-- C `isspace` on a byte, as used by `strtol` to skip leading space. -/
def isSpaceByte (c : Nat) : Bool :=
  c == 32 || (decide (9 ≤ c) && decide (c ≤ 13))

/-- Digit part of `strtol(s, &end, 16)`: an optional `0x`/`0X` prefix
followed by hexadecimal digits. -/
def strtol16body (s : List Nat) : Nat :=
  match s with
  | 48 :: 120 :: rest => hexDigitsVal rest 0
  | 48 :: 88 :: rest => hexDigitsVal rest 0
  | _ => hexDigitsVal s 0

/-- `strtol(s, &end, 16)` on a NUL-terminated byte string: skip
spaces, optional sign, optional `0x` prefix, then hex digits.
(The `LONG_MAX` clamp is not modelled; the PAL only compares the
result against `0` and `USHRT_MAX`, and label strings long enough to
overflow a `long` are out of scope.) -/
def strtol16 (s : List Nat) : Int :=
  let t := s.dropWhile isSpaceByte
  match t with
  | 45 :: rest => - (strtol16body rest : Int)
  | 43 :: rest => (strtol16body rest : Int)
  | _ => (strtol16body t : Int)

/-- The C cast `(uint16_t) l` on a `long`: value modulo 2^16. -/
def toUInt16 (i : Int) : Nat := (i % 65536).toNat

/-- `0 == memcmp(pLabel, &LITERAL, sizeof(LITERAL))`: the first
`ref.length` bytes of the presented label equal the reference label
(the reference list carries its terminating NUL, as `sizeof` does). -/
def labelMatches (pLabel ref : List Nat) : Bool :=
  decide (pLabel.take ref.length = ref)

/-- Modelled from the spec: the four `pkcs11configLABEL_*` strings
come from a configuration header that is not among the sources; the
spec describes them as configuration-supplied hexadecimal label
strings parsed into 16-bit slot locations. The embedding is
parameterised over them; each field is the label's byte string
including its terminating NUL byte. -/
structure PALConfig where
  certLabel : List Nat
  privLabel : List Nat
  pubLabel : List Nat
  codeLabel : List Nat
deriving DecidableEq

/-- `PKCS11_PAL_SaveObject(pxLabel, pucData, ulDataSize)`.

`writeStatus` is the status the OPTIGA access layer would return for
the (at most one) `optiga_util_write_data` call of this invocation.
The result is the returned `CK_OBJECT_HANDLE` together with the list
of device commands issued. -/
def PKCS11_PAL_SaveObject (cfg : PALConfig) (writeStatus : Nat)
    (pxLabel : List Nat) (pucData : List Nat) (ulDataSize : Nat) :
    Nat × List DeviceCmd :=
  if ulDataSize ≤ pkcs11OBJECT_CERTIFICATE_MAX_SIZE then
    if labelMatches pxLabel cfg.certLabel then
      let lOptigaOid := strtol16 cfg.certLabel
      if lOptigaOid ≠ 0 ∧ lOptigaOid < USHRT_MAX ∧ (ulDataSize : Int) < USHRT_MAX then
        if writeStatus = OPTIGA_LIB_SUCCESS then
          (eAwsDeviceCertificate,
            [DeviceCmd.write (toUInt16 lOptigaOid) 0 (pucData.take ulDataSize) ulDataSize])
        else
          (eInvalidHandle,
            [DeviceCmd.write (toUInt16 lOptigaOid) 0 (pucData.take ulDataSize) ulDataSize])
      else (eInvalidHandle, [])
    else if labelMatches pxLabel cfg.privLabel then
      (eAwsDevicePrivateKey, [])
    else if labelMatches pxLabel cfg.pubLabel then
      let lOptigaOid := strtol16 cfg.pubLabel
      if lOptigaOid ≠ 0 ∧ lOptigaOid ≤ USHRT_MAX ∧ (ulDataSize : Int) ≤ USHRT_MAX then
        if writeStatus = OPTIGA_LIB_SUCCESS then
          (eAwsDevicePublicKey,
            [DeviceCmd.write (toUInt16 lOptigaOid) 0 (pucData.take ulDataSize) ulDataSize])
        else
          (eInvalidHandle,
            [DeviceCmd.write (toUInt16 lOptigaOid) 0 (pucData.take ulDataSize) ulDataSize])
      else (eInvalidHandle, [])
    else if labelMatches pxLabel cfg.codeLabel then
      let lOptigaOid := strtol16 cfg.codeLabel
      if lOptigaOid ≠ 0 ∧ lOptigaOid < USHRT_MAX ∧ (ulDataSize : Int) < USHRT_MAX then
        if writeStatus = OPTIGA_LIB_SUCCESS then
          (eAwsCodeSigningKey,
            [DeviceCmd.write (toUInt16 lOptigaOid) 0 (pucData.take ulDataSize) ulDataSize])
        else
          (eInvalidHandle,
            [DeviceCmd.write (toUInt16 lOptigaOid) 0 (pucData.take ulDataSize) ulDataSize])
      else (eInvalidHandle, [])
    else (eInvalidHandle, [])
  else (eInvalidHandle, [])

/-- `PKCS11_PAL_FindObject(pLabel, usLength)`: pure label lookup.
The `usLength` argument is received but never used, exactly as in the
source (the comparisons read `sizeof` of each reference label). -/
def PKCS11_PAL_FindObject (cfg : PALConfig) (pLabel : List Nat)
    (usLength : Nat) : Nat × List DeviceCmd :=
  if labelMatches pLabel cfg.certLabel then (eAwsDeviceCertificate, [])
  else if labelMatches pLabel cfg.privLabel then (eAwsDevicePrivateKey, [])
  else if labelMatches pLabel cfg.pubLabel then (eAwsDevicePublicKey, [])
  else if labelMatches pLabel cfg.codeLabel then (eAwsCodeSigningKey, [])
  else (eInvalidHandle, [])

/-- The outputs of `PKCS11_PAL_GetObjectValue`: `CK_RV` return value,
`*ppucData` (`none` models a NULL pointer), `*pulDataSize`,
`*pIsPrivate`, the device commands issued, and how many times
`pvPortMalloc` was called. -/
structure GetValueResult where
  rv : Nat
  ppucData : Option (List Nat)
  pulDataSize : Nat
  pIsPrivate : Nat
  cmds : List DeviceCmd
  mallocCalls : Nat
deriving DecidableEq

/-- `PKCS11_PAL_GetObjectValue(xHandle, ppucData, pulDataSize, pIsPrivate)`.

`mallocResult` is what `pvPortMalloc(1200)` returns on this call
(`some buf` a fresh 1200-byte buffer, `none` a NULL pointer);
`devRead oid offset lenIn` is the OPTIGA access layer's behaviour for
`optiga_util_read_data`: its status, the bytes it deposits in the
caller's buffer, and the value it stores back through the in/out
length pointer. -/
def PKCS11_PAL_GetObjectValue (cfg : PALConfig)
    (mallocResult : Option (List Nat))
    (devRead : Nat → Nat → Nat → Nat × List Nat × Nat)
    (xHandle : Nat) : GetValueResult :=
  let pIsPrivate := CK_FALSE
  let ppucData : Option (List Nat) := mallocResult
  let pulDataSize : Nat := 1200
  let step : Nat × Int :=
    if xHandle = eAwsDeviceCertificate then (CKR_OK, strtol16 cfg.certLabel)
    else if xHandle = eAwsDevicePublicKey then (CKR_OK, strtol16 cfg.pubLabel)
    else if xHandle = eAwsCodeSigningKey then (CKR_OK, strtol16 cfg.codeLabel)
    else (CKR_KEY_HANDLE_INVALID, (0 : Int))
  let ulReturn := step.1
  let lOptigaOid := step.2
  if lOptigaOid ≠ 0 ∧ lOptigaOid < USHRT_MAX ∧ ppucData ≠ none then
    let r := devRead (toUInt16 lOptigaOid) 0 pulDataSize
    if r.1 ≠ OPTIGA_LIB_SUCCESS then
      ⟨CKR_KEY_HANDLE_INVALID, none, 0, pIsPrivate,
        [DeviceCmd.read (toUInt16 lOptigaOid) 0 pulDataSize], 1⟩
    else
      ⟨ulReturn, some r.2.1, r.2.2, pIsPrivate,
        [DeviceCmd.read (toUInt16 lOptigaOid) 0 pulDataSize], 1⟩
  else
    ⟨ulReturn, ppucData, pulDataSize, pIsPrivate, [], 1⟩

/-- `PKCS11_PAL_GetObjectValueCleanup(pucData, ulDataSize)`: calls
`vPortFree(pucData)` and nothing else. Modelled as the identity on
the observable outputs (freeing a NULL pointer is a no-op for
`vPortFree`). -/
def PKCS11_PAL_GetObjectValueCleanup (pucData : Option (List Nat))
    (ulDataSize : Nat) : Unit :=
  let _ := pucData
  let _ := ulDataSize
  ()

/-- Modelled from the spec: the OPTIGA object store keeps raw object
bytes per 16-bit location; `ERASE_AND_WRITE` replaces the slot's
content with the written bytes. -/
def optigaStoreWrite (store : Nat → List Nat) (oid : Nat)
    (data : List Nat) : Nat → List Nat :=
  fun o => if o = oid then data else store o

/-- Modelled from the spec: a faithful `optiga_util_read_data` that
returns the bytes last written to the slot, truncated to the
caller's buffer length, storing back the number of bytes delivered. -/
def optigaStoreRead (store : Nat → List Nat) :
    Nat → Nat → Nat → Nat × List Nat × Nat :=
  fun oid _ lenIn =>
    (OPTIGA_LIB_SUCCESS, (store oid).take lenIn, min (store oid).length lenIn)

/-- Replay a recorded command list against a store model. -/
def applyCmds (store : Nat → List Nat) : List DeviceCmd → (Nat → List Nat)
  | [] => store
  | DeviceCmd.write oid _ data _ :: rest =>
    applyCmds (optigaStoreWrite store oid data) rest
  | DeviceCmd.read _ _ _ :: rest => applyCmds store rest

/-- Modelled from the spec: a concrete example configuration with
four distinct hexadecimal label strings of the shape the spec
describes (certificate, private-key, public-key and trust-anchor
slots). The bytes spell "0xE0E1", "0xE0F0", "0xF1D0", "0xE0E8", each
with its terminating NUL. -/
def exampleCfg : PALConfig :=
  ⟨[48, 120, 69, 48, 69, 49, 0],
   [48, 120, 69, 48, 70, 48, 0],
   [48, 120, 70, 49, 68, 48, 0],
   [48, 120, 69, 48, 69, 56, 0]⟩

/-! ### Helper lemmas -/

lemma labelMatches_self (l : List Nat) : labelMatches l l = true := by
  simp [labelMatches]

/-- Evaluation of `PKCS11_PAL_SaveObject` applied to the configured
certificate label: the certificate branch is always the one taken. -/
lemma save_cert_eval (cfg : PALConfig) (ws : Nat) (p : List Nat) (n : Nat) :
    PKCS11_PAL_SaveObject cfg ws cfg.certLabel p n =
      if n ≤ pkcs11OBJECT_CERTIFICATE_MAX_SIZE ∧ strtol16 cfg.certLabel ≠ 0 ∧
          strtol16 cfg.certLabel < USHRT_MAX ∧ (n : Int) < USHRT_MAX then
        ((if ws = OPTIGA_LIB_SUCCESS then eAwsDeviceCertificate else eInvalidHandle),
          [DeviceCmd.write (toUInt16 (strtol16 cfg.certLabel)) 0 (p.take n) n])
      else (eInvalidHandle, []) := by
  unfold PKCS11_PAL_SaveObject
  simp only [labelMatches_self, if_true]
  split_ifs <;> simp_all

/-- C9: the result of `PKCS11_PAL_FindObject` does not depend on the
caller-supplied `usLength` argument, which the source never reads. -/
theorem findobject_ignores_length (cfg : PALConfig) (pLabel : List Nat)
    (len1 len2 : Nat) :
    PKCS11_PAL_FindObject cfg pLabel len1 =
      PKCS11_PAL_FindObject cfg pLabel len2 := rfl

/-- C10: `PKCS11_PAL_GetObjectValue` stores `CK_FALSE` through
`pIsPrivate` on every call, whatever the handle, the allocator and
the device do. -/
theorem getvalue_isPrivate_always_false (cfg : PALConfig)
    (mallocResult : Option (List Nat))
    (devRead : Nat → Nat → Nat → Nat × List Nat × Nat) (xHandle : Nat) :
    (PKCS11_PAL_GetObjectValue cfg mallocResult devRead xHandle).pIsPrivate
      = CK_FALSE := by
  unfold PKCS11_PAL_GetObjectValue
  dsimp only
  split_ifs <;> rfl

/-- C4: a payload size above `pkcs11OBJECT_CERTIFICATE_MAX_SIZE`
makes `PKCS11_PAL_SaveObject` return `eInvalidHandle` without issuing
any device command, for every label. -/
theorem save_oversize_rejected (cfg : PALConfig) (ws : Nat)
    (lbl data : List Nat) (n : Nat)
    (h : pkcs11OBJECT_CERTIFICATE_MAX_SIZE < n) :
    PKCS11_PAL_SaveObject cfg ws lbl data n = (eInvalidHandle, []) := by
  unfold PKCS11_PAL_SaveObject
  rw [if_neg (by omega)]

theorem save_oversize_rejected_witness :
    pkcs11OBJECT_CERTIFICATE_MAX_SIZE < 2049 ∧
    PKCS11_PAL_SaveObject exampleCfg 0 exampleCfg.certLabel
      (List.replicate 2049 7) 2049 = (eInvalidHandle, []) :=
  ⟨by decide,
    save_oversize_rejected exampleCfg 0 exampleCfg.certLabel
      (List.replicate 2049 7) 2049 (by decide)⟩

/-- C2 counterexample: the private-key branch of
`PKCS11_PAL_SaveObject` sits inside the `ulDataSize <= 2048` guard,
so a 2049-byte payload under the private-key label yields
`eInvalidHandle`, not `eAwsDevicePrivateKey` — the claim fails for
payloads longer than the maximum object size. -/
theorem save_private_key_oversize_cex :
    PKCS11_PAL_SaveObject exampleCfg OPTIGA_LIB_SUCCESS exampleCfg.privLabel
      (List.replicate 2049 0) 2049 = (eInvalidHandle, []) ∧
    eInvalidHandle ≠ eAwsDevicePrivateKey := by
  refine ⟨?_, by decide⟩
  unfold PKCS11_PAL_SaveObject
  rw [if_neg (by decide)]

/-- C2 (amended): for payloads within the maximum object size, saving
under the private-key label returns `eAwsDevicePrivateKey` and issues
no device command (provided the private-key label does not also match
the certificate pattern, which is checked first). -/
theorem save_private_key_no_io (cfg : PALConfig) (ws : Nat)
    (data : List Nat) (n : Nat)
    (hn : n ≤ pkcs11OBJECT_CERTIFICATE_MAX_SIZE)
    (hc : labelMatches cfg.privLabel cfg.certLabel = false) :
    PKCS11_PAL_SaveObject cfg ws cfg.privLabel data n =
      (eAwsDevicePrivateKey, []) := by
  unfold PKCS11_PAL_SaveObject
  rw [if_pos hn, if_neg (by simp [hc]), if_pos (labelMatches_self _)]

theorem save_private_key_no_io_witness :
    (2048 : Nat) ≤ pkcs11OBJECT_CERTIFICATE_MAX_SIZE ∧
    PKCS11_PAL_SaveObject exampleCfg 0 exampleCfg.privLabel
      (List.replicate 2048 0) 2048 = (eAwsDevicePrivateKey, []) :=
  ⟨by decide,
    save_private_key_no_io exampleCfg 0 (List.replicate 2048 0) 2048
      (by decide) (by decide)⟩

/-- C3: `PKCS11_PAL_FindObject` returns each of the four nonzero
handle constants for its configured label (given labels that do not
shadow one another in the branch order of the source) and
`eInvalidHandle` for any label matching none of the four, issuing no
device command in any case. -/
theorem findobject_table_lookup (cfg : PALConfig) (len1 : Nat)
    (hpc : labelMatches cfg.privLabel cfg.certLabel = false)
    (hbc : labelMatches cfg.pubLabel cfg.certLabel = false)
    (hbp : labelMatches cfg.pubLabel cfg.privLabel = false)
    (hqc : labelMatches cfg.codeLabel cfg.certLabel = false)
    (hqp : labelMatches cfg.codeLabel cfg.privLabel = false)
    (hqb : labelMatches cfg.codeLabel cfg.pubLabel = false) :
    PKCS11_PAL_FindObject cfg cfg.certLabel len1 = (eAwsDeviceCertificate, []) ∧
    PKCS11_PAL_FindObject cfg cfg.privLabel len1 = (eAwsDevicePrivateKey, []) ∧
    PKCS11_PAL_FindObject cfg cfg.pubLabel len1 = (eAwsDevicePublicKey, []) ∧
    PKCS11_PAL_FindObject cfg cfg.codeLabel len1 = (eAwsCodeSigningKey, []) ∧
    eAwsDeviceCertificate ≠ eInvalidHandle ∧
    eAwsDevicePrivateKey ≠ eInvalidHandle ∧
    eAwsDevicePublicKey ≠ eInvalidHandle ∧
    eAwsCodeSigningKey ≠ eInvalidHandle ∧
    (∀ lbl len2, labelMatches lbl cfg.certLabel = false →
      labelMatches lbl cfg.privLabel = false →
      labelMatches lbl cfg.pubLabel = false →
      labelMatches lbl cfg.codeLabel = false →
      PKCS11_PAL_FindObject cfg lbl len2 = (eInvalidHandle, [])) := by
  refine ⟨?_, ?_, ?_, ?_, by decide, by decide, by decide, by decide, ?_⟩
  · unfold PKCS11_PAL_FindObject
    rw [if_pos (labelMatches_self _)]
  · unfold PKCS11_PAL_FindObject
    rw [if_neg (by simp [hpc]), if_pos (labelMatches_self _)]
  · unfold PKCS11_PAL_FindObject
    rw [if_neg (by simp [hbc]), if_neg (by simp [hbp]),
      if_pos (labelMatches_self _)]
  · unfold PKCS11_PAL_FindObject
    rw [if_neg (by simp [hqc]), if_neg (by simp [hqp]),
      if_neg (by simp [hqb]), if_pos (labelMatches_self _)]
  · intro lbl len2 h1 h2 h3 h4
    unfold PKCS11_PAL_FindObject
    rw [if_neg (by simp [h1]), if_neg (by simp [h2]),
      if_neg (by simp [h3]), if_neg (by simp [h4])]

theorem findobject_table_lookup_witness :
    PKCS11_PAL_FindObject exampleCfg exampleCfg.certLabel 7
      = (eAwsDeviceCertificate, []) ∧
    PKCS11_PAL_FindObject exampleCfg exampleCfg.privLabel 7
      = (eAwsDevicePrivateKey, []) ∧
    PKCS11_PAL_FindObject exampleCfg [65, 0] 2 = (eInvalidHandle, []) := by
  have h := findobject_table_lookup exampleCfg 7 (by decide) (by decide)
    (by decide) (by decide) (by decide) (by decide)
  exact ⟨h.1, h.2.1,
    h.2.2.2.2.2.2.2.2 [65, 0] 2 (by decide) (by decide) (by decide) (by decide)⟩

/-- C5 counterexample: `pvPortMalloc(1200)` is called before the
handle is examined, so `PKCS11_PAL_GetObjectValue` on the
private-key handle does fail with `CKR_KEY_HANDLE_INVALID` and issues
no read, yet it performs one allocation and hands the 1200-byte
buffer (and length 1200) to the caller — contradicting "allocates no
payload buffer for the caller". -/
theorem getvalue_private_key_allocates_cex :
    (PKCS11_PAL_GetObjectValue exampleCfg (some (List.replicate 1200 0))
        (fun _ _ _ => (OPTIGA_LIB_SUCCESS, [], 0)) eAwsDevicePrivateKey).mallocCalls
      = 1 ∧
    (PKCS11_PAL_GetObjectValue exampleCfg (some (List.replicate 1200 0))
        (fun _ _ _ => (OPTIGA_LIB_SUCCESS, [], 0)) eAwsDevicePrivateKey).ppucData
      ≠ none ∧
    (1 : Nat) ≠ 0 := by
  refine ⟨rfl, ?_, by decide⟩
  unfold PKCS11_PAL_GetObjectValue
  decide

/-- C5 (amended): for the private-key handle and every handle outside
the recognized enumeration, `PKCS11_PAL_GetObjectValue` fails with
`CKR_KEY_HANDLE_INVALID` and issues no device read, but it still
calls the allocator once and passes the allocation (the malloc result
and length 1200) back to the caller. -/
theorem getvalue_invalid_handle_behavior (cfg : PALConfig)
    (mallocResult : Option (List Nat))
    (devRead : Nat → Nat → Nat → Nat × List Nat × Nat) (xHandle : Nat)
    (h : xHandle ≠ eAwsDeviceCertificate ∧ xHandle ≠ eAwsDevicePublicKey ∧
      xHandle ≠ eAwsCodeSigningKey) :
    PKCS11_PAL_GetObjectValue cfg mallocResult devRead xHandle =
      ⟨CKR_KEY_HANDLE_INVALID, mallocResult, 1200, CK_FALSE, [], 1⟩ := by
  obtain ⟨h1, h2, h3⟩ := h
  unfold PKCS11_PAL_GetObjectValue
  rw [if_neg h1, if_neg h2, if_neg h3]
  rw [if_neg (by simp)]

theorem getvalue_invalid_handle_behavior_witness :
    eAwsDevicePrivateKey ≠ eAwsDeviceCertificate ∧
    PKCS11_PAL_GetObjectValue exampleCfg (some (List.replicate 1200 0))
        (fun _ _ _ => (OPTIGA_LIB_SUCCESS, [], 0)) eAwsDevicePrivateKey =
      ⟨CKR_KEY_HANDLE_INVALID, some (List.replicate 1200 0), 1200, CK_FALSE,
        [], 1⟩ :=
  ⟨by decide,
    getvalue_invalid_handle_behavior exampleCfg (some (List.replicate 1200 0))
      (fun _ _ _ => (OPTIGA_LIB_SUCCESS, [], 0)) eAwsDevicePrivateKey
      ⟨by decide, by decide, by decide⟩⟩

/-- C8: when `pvPortMalloc` returns NULL for a certificate,
public-key or code-signing handle, `PKCS11_PAL_GetObjectValue`
issues no device read and returns `CKR_OK` with a NULL data pointer
and length 1200. -/
theorem getvalue_malloc_failure_returns_ok (cfg : PALConfig)
    (devRead : Nat → Nat → Nat → Nat × List Nat × Nat) (xHandle : Nat)
    (h : xHandle = eAwsDeviceCertificate ∨ xHandle = eAwsDevicePublicKey ∨
      xHandle = eAwsCodeSigningKey) :
    PKCS11_PAL_GetObjectValue cfg none devRead xHandle =
      ⟨CKR_OK, none, 1200, CK_FALSE, [], 1⟩ := by
  unfold PKCS11_PAL_GetObjectValue
  rcases h with h | h | h <;> subst h <;>
    simp only [eAwsDeviceCertificate, eAwsDevicePublicKey, eAwsCodeSigningKey] <;>
    norm_num

theorem getvalue_malloc_failure_returns_ok_witness :
    (eAwsDeviceCertificate = eAwsDeviceCertificate ∨
      eAwsDeviceCertificate = eAwsDevicePublicKey ∨
      eAwsDeviceCertificate = eAwsCodeSigningKey) ∧
    PKCS11_PAL_GetObjectValue exampleCfg none
        (fun _ _ _ => (OPTIGA_LIB_SUCCESS, [], 0)) eAwsDeviceCertificate =
      ⟨CKR_OK, none, 1200, CK_FALSE, [], 1⟩ :=
  ⟨Or.inl rfl,
    getvalue_malloc_failure_returns_ok exampleCfg
      (fun _ _ _ => (OPTIGA_LIB_SUCCESS, [], 0)) eAwsDeviceCertificate
      (Or.inl rfl)⟩

/-- Evaluation of `PKCS11_PAL_SaveObject` applied to the configured
public-key label, assuming it matches neither of the two branches
tried before it. Note the non-strict bounds (`<=`), unlike the
certificate and code-verification branches. -/
lemma save_pub_eval (cfg : PALConfig) (ws : Nat) (p : List Nat) (n : Nat)
    (hbc : labelMatches cfg.pubLabel cfg.certLabel = false)
    (hbp : labelMatches cfg.pubLabel cfg.privLabel = false) :
    PKCS11_PAL_SaveObject cfg ws cfg.pubLabel p n =
      if n ≤ pkcs11OBJECT_CERTIFICATE_MAX_SIZE ∧ strtol16 cfg.pubLabel ≠ 0 ∧
          strtol16 cfg.pubLabel ≤ USHRT_MAX ∧ (n : Int) ≤ USHRT_MAX then
        ((if ws = OPTIGA_LIB_SUCCESS then eAwsDevicePublicKey else eInvalidHandle),
          [DeviceCmd.write (toUInt16 (strtol16 cfg.pubLabel)) 0 (p.take n) n])
      else (eInvalidHandle, []) := by
  unfold PKCS11_PAL_SaveObject
  simp only [hbc, hbp, labelMatches_self, Bool.false_eq_true, if_false, if_true]
  split_ifs <;> simp_all

/-- Evaluation of `PKCS11_PAL_SaveObject` applied to the configured
code-verification label, assuming it matches none of the three
branches tried before it. -/
lemma save_code_eval (cfg : PALConfig) (ws : Nat) (p : List Nat) (n : Nat)
    (hqc : labelMatches cfg.codeLabel cfg.certLabel = false)
    (hqp : labelMatches cfg.codeLabel cfg.privLabel = false)
    (hqb : labelMatches cfg.codeLabel cfg.pubLabel = false) :
    PKCS11_PAL_SaveObject cfg ws cfg.codeLabel p n =
      if n ≤ pkcs11OBJECT_CERTIFICATE_MAX_SIZE ∧ strtol16 cfg.codeLabel ≠ 0 ∧
          strtol16 cfg.codeLabel < USHRT_MAX ∧ (n : Int) < USHRT_MAX then
        ((if ws = OPTIGA_LIB_SUCCESS then eAwsCodeSigningKey else eInvalidHandle),
          [DeviceCmd.write (toUInt16 (strtol16 cfg.codeLabel)) 0 (p.take n) n])
      else (eInvalidHandle, []) := by
  unfold PKCS11_PAL_SaveObject
  simp only [hqc, hqp, hqb, labelMatches_self, Bool.false_eq_true, if_false,
    if_true]
  split_ifs <;> simp_all

/-- C6: a nonzero OPTIGA status is never reported as success. If the
write of `PKCS11_PAL_SaveObject` runs and fails, the returned handle
is `eInvalidHandle`; if the read of `PKCS11_PAL_GetObjectValue` runs
and fails, the call returns `CKR_KEY_HANDLE_INVALID` with a NULL data
pointer and length zero. -/
theorem device_failure_never_silent_success (cfg : PALConfig) (ws : Nat)
    (lbl data : List Nat) (n : Nat) (mallocResult : Option (List Nat))
    (devRead : Nat → Nat → Nat → Nat × List Nat × Nat) :
    (ws ≠ OPTIGA_LIB_SUCCESS →
      (PKCS11_PAL_SaveObject cfg ws lbl data n).2 ≠ [] →
      (PKCS11_PAL_SaveObject cfg ws lbl data n).1 = eInvalidHandle) ∧
    ((∀ oid off len, (devRead oid off len).1 ≠ OPTIGA_LIB_SUCCESS) →
      ∀ xh, (PKCS11_PAL_GetObjectValue cfg mallocResult devRead xh).cmds ≠ [] →
        (PKCS11_PAL_GetObjectValue cfg mallocResult devRead xh).rv
            = CKR_KEY_HANDLE_INVALID ∧
          (PKCS11_PAL_GetObjectValue cfg mallocResult devRead xh).ppucData = none ∧
          (PKCS11_PAL_GetObjectValue cfg mallocResult devRead xh).pulDataSize = 0) := by
  constructor
  · intro hws hcmds
    unfold PKCS11_PAL_SaveObject at hcmds ⊢
    dsimp only at hcmds ⊢
    split_ifs at hcmds ⊢ <;> simp_all
  · intro hdev xh hcmds
    unfold PKCS11_PAL_GetObjectValue at hcmds ⊢
    dsimp only at hcmds ⊢
    split_ifs at hcmds ⊢ <;> simp_all

theorem device_failure_never_silent_success_witness :
    (1 : Nat) ≠ OPTIGA_LIB_SUCCESS ∧
    (PKCS11_PAL_SaveObject exampleCfg 1 exampleCfg.certLabel [1] 1).2 ≠ [] ∧
    (PKCS11_PAL_SaveObject exampleCfg 1 exampleCfg.certLabel [1] 1).1
      = eInvalidHandle ∧
    (PKCS11_PAL_GetObjectValue exampleCfg (some (List.replicate 1200 0))
        (fun _ _ _ => (1, [], 0)) eAwsDeviceCertificate).rv
      = CKR_KEY_HANDLE_INVALID := by
  have h := device_failure_never_silent_success exampleCfg 1
    exampleCfg.certLabel [1] 1 (some (List.replicate 1200 0))
    (fun _ _ _ => (1, [], 0))
  exact ⟨by decide, by decide, h.1 (by decide) (by decide),
    (h.2 (fun _ _ _ => by decide) eAwsDeviceCertificate (by decide)).1⟩

/-- Modelled from the spec: a configuration exercising the boundary
location value 0xFFFF = USHRT_MAX. The certificate label spells
"0xFFFF" and the public-key label "0x0FFFF"; both parse to 65535,
which fits an unsigned 16-bit range. -/
def boundaryCfg : PALConfig :=
  ⟨[48, 120, 70, 70, 70, 70, 0],
   [48, 120, 69, 48, 70, 48, 0],
   [48, 120, 48, 70, 70, 70, 70, 0],
   [48, 120, 69, 48, 69, 56, 0]⟩

/-- C7 counterexample: at the parsed location 65535 — nonzero and
within the unsigned 16-bit range — the certificate branch refuses to
write (its check is the strict `USHRT_MAX > lOptigaOid`) while the
public-key branch does write (its check is the non-strict
`USHRT_MAX >= lOptigaOid`): the "write iff the location fits 16 bits"
reading fails, and the two branches' bounds checks are not identical. -/
theorem save_bounds_check_not_identical_cex :
    strtol16 boundaryCfg.certLabel = 65535 ∧
    strtol16 boundaryCfg.pubLabel = 65535 ∧
    strtol16 boundaryCfg.certLabel ≠ 0 ∧
    strtol16 boundaryCfg.certLabel ≤ USHRT_MAX ∧
    ((1 : Int) ≤ USHRT_MAX) ∧
    (PKCS11_PAL_SaveObject boundaryCfg OPTIGA_LIB_SUCCESS
      boundaryCfg.certLabel [1] 1).2 = [] ∧
    (PKCS11_PAL_SaveObject boundaryCfg OPTIGA_LIB_SUCCESS
      boundaryCfg.pubLabel [1] 1).2 ≠ [] := by
  decide

/-- C7 (amended): with the payload already within the 2048-byte
maximum, each writable branch attempts its write iff the parsed
location is nonzero and satisfies that branch's bound — strictly
below USHRT_MAX for the certificate and code-verification branches,
but at most USHRT_MAX for the public-key branch. -/
theorem save_write_attempt_condition (cfg : PALConfig) (ws : Nat)
    (data : List Nat) (n : Nat)
    (hn : n ≤ pkcs11OBJECT_CERTIFICATE_MAX_SIZE)
    (hbc : labelMatches cfg.pubLabel cfg.certLabel = false)
    (hbp : labelMatches cfg.pubLabel cfg.privLabel = false)
    (hqc : labelMatches cfg.codeLabel cfg.certLabel = false)
    (hqp : labelMatches cfg.codeLabel cfg.privLabel = false)
    (hqb : labelMatches cfg.codeLabel cfg.pubLabel = false) :
    ((PKCS11_PAL_SaveObject cfg ws cfg.certLabel data n).2 ≠ [] ↔
      (strtol16 cfg.certLabel ≠ 0 ∧ strtol16 cfg.certLabel < USHRT_MAX)) ∧
    ((PKCS11_PAL_SaveObject cfg ws cfg.pubLabel data n).2 ≠ [] ↔
      (strtol16 cfg.pubLabel ≠ 0 ∧ strtol16 cfg.pubLabel ≤ USHRT_MAX)) ∧
    ((PKCS11_PAL_SaveObject cfg ws cfg.codeLabel data n).2 ≠ [] ↔
      (strtol16 cfg.codeLabel ≠ 0 ∧ strtol16 cfg.codeLabel < USHRT_MAX)) := by
  have hni : (n : Int) < USHRT_MAX := by
    unfold pkcs11OBJECT_CERTIFICATE_MAX_SIZE at hn
    unfold USHRT_MAX
    omega
  refine ⟨?_, ?_, ?_⟩
  · rw [save_cert_eval]
    by_cases hc : strtol16 cfg.certLabel ≠ 0 ∧ strtol16 cfg.certLabel < USHRT_MAX
    · rw [if_pos ⟨hn, hc.1, hc.2, hni⟩]
      exact iff_of_true (by simp) hc
    · rw [if_neg (fun hfull => hc ⟨hfull.2.1, hfull.2.2.1⟩)]
      exact iff_of_false (by simp) hc
  · rw [save_pub_eval cfg ws data n hbc hbp]
    by_cases hc : strtol16 cfg.pubLabel ≠ 0 ∧ strtol16 cfg.pubLabel ≤ USHRT_MAX
    · rw [if_pos ⟨hn, hc.1, hc.2, hni.le⟩]
      exact iff_of_true (by simp) hc
    · rw [if_neg (fun hfull => hc ⟨hfull.2.1, hfull.2.2.1⟩)]
      exact iff_of_false (by simp) hc
  · rw [save_code_eval cfg ws data n hqc hqp hqb]
    by_cases hc : strtol16 cfg.codeLabel ≠ 0 ∧ strtol16 cfg.codeLabel < USHRT_MAX
    · rw [if_pos ⟨hn, hc.1, hc.2, hni⟩]
      exact iff_of_true (by simp) hc
    · rw [if_neg (fun hfull => hc ⟨hfull.2.1, hfull.2.2.1⟩)]
      exact iff_of_false (by simp) hc

theorem save_write_attempt_condition_witness :
    (1 : Nat) ≤ pkcs11OBJECT_CERTIFICATE_MAX_SIZE ∧
    ((PKCS11_PAL_SaveObject boundaryCfg OPTIGA_LIB_SUCCESS
        boundaryCfg.certLabel [1] 1).2 ≠ [] ↔
      (strtol16 boundaryCfg.certLabel ≠ 0 ∧
        strtol16 boundaryCfg.certLabel < USHRT_MAX)) ∧
    ((PKCS11_PAL_SaveObject boundaryCfg OPTIGA_LIB_SUCCESS
        boundaryCfg.pubLabel [1] 1).2 ≠ [] ↔
      (strtol16 boundaryCfg.pubLabel ≠ 0 ∧
        strtol16 boundaryCfg.pubLabel ≤ USHRT_MAX)) :=
  ⟨by decide,
    (save_write_attempt_condition boundaryCfg OPTIGA_LIB_SUCCESS [1] 1
      (by decide) (by decide) (by decide) (by decide) (by decide)
      (by decide)).1,
    (save_write_attempt_condition boundaryCfg OPTIGA_LIB_SUCCESS [1] 1
      (by decide) (by decide) (by decide) (by decide) (by decide)
      (by decide)).2.1⟩

/-- Evaluation of `PKCS11_PAL_GetObjectValue` at the certificate
handle. -/
lemma getvalue_cert_eval (cfg : PALConfig) (mallocResult : Option (List Nat))
    (devRead : Nat → Nat → Nat → Nat × List Nat × Nat) :
    PKCS11_PAL_GetObjectValue cfg mallocResult devRead eAwsDeviceCertificate =
      if strtol16 cfg.certLabel ≠ 0 ∧ strtol16 cfg.certLabel < USHRT_MAX ∧
          mallocResult ≠ none then
        (if (devRead (toUInt16 (strtol16 cfg.certLabel)) 0 1200).1
              ≠ OPTIGA_LIB_SUCCESS then
          ⟨CKR_KEY_HANDLE_INVALID, none, 0, CK_FALSE,
            [DeviceCmd.read (toUInt16 (strtol16 cfg.certLabel)) 0 1200], 1⟩
        else
          ⟨CKR_OK,
            some (devRead (toUInt16 (strtol16 cfg.certLabel)) 0 1200).2.1,
            (devRead (toUInt16 (strtol16 cfg.certLabel)) 0 1200).2.2, CK_FALSE,
            [DeviceCmd.read (toUInt16 (strtol16 cfg.certLabel)) 0 1200], 1⟩)
      else ⟨CKR_OK, mallocResult, 1200, CK_FALSE, [], 1⟩ := by
  unfold PKCS11_PAL_GetObjectValue
  dsimp only
  norm_num

/-- C1: after a successful certificate save, reading the certificate
handle back — against a device whose read returns the bytes last
written to the slot, truncated to the fixed 1200-byte buffer — yields
`CKR_OK`, the saved payload truncated to 1200 bytes, the delivered
length, and `isPrivate = CK_FALSE`. -/
theorem getvalue_after_save_roundtrips (cfg : PALConfig) (p : List Nat)
    (store : Nat → List Nat)
    (h : (PKCS11_PAL_SaveObject cfg OPTIGA_LIB_SUCCESS cfg.certLabel p
      p.length).1 = eAwsDeviceCertificate) :
    PKCS11_PAL_GetObjectValue cfg (some (List.replicate 1200 0))
      (optigaStoreRead (applyCmds store
        (PKCS11_PAL_SaveObject cfg OPTIGA_LIB_SUCCESS cfg.certLabel p
          p.length).2))
      eAwsDeviceCertificate =
    ⟨CKR_OK, some (p.take 1200), min p.length 1200, CK_FALSE,
      [DeviceCmd.read (toUInt16 (strtol16 cfg.certLabel)) 0 1200], 1⟩ := by
  rw [save_cert_eval] at h ⊢
  by_cases hcond : p.length ≤ pkcs11OBJECT_CERTIFICATE_MAX_SIZE ∧
    strtol16 cfg.certLabel ≠ 0 ∧ strtol16 cfg.certLabel < USHRT_MAX ∧
    ((p.length : Int) < USHRT_MAX)
  · rw [if_pos hcond]
    obtain ⟨h1, h2, h3, h4⟩ := hcond
    dsimp only
    simp only [List.take_length, applyCmds]
    rw [getvalue_cert_eval]
    rw [if_pos ⟨h2, h3, Option.some_ne_none _⟩]
    unfold optigaStoreRead optigaStoreWrite
    simp [OPTIGA_LIB_SUCCESS]
  · rw [if_neg hcond] at h
    exact absurd h (by decide)

theorem getvalue_after_save_roundtrips_witness :
    (PKCS11_PAL_SaveObject exampleCfg OPTIGA_LIB_SUCCESS exampleCfg.certLabel
      [10, 20, 30] 3).1 = eAwsDeviceCertificate ∧
    PKCS11_PAL_GetObjectValue exampleCfg (some (List.replicate 1200 0))
      (optigaStoreRead (applyCmds (fun _ => [])
        (PKCS11_PAL_SaveObject exampleCfg OPTIGA_LIB_SUCCESS
          exampleCfg.certLabel [10, 20, 30] 3).2))
      eAwsDeviceCertificate =
    ⟨CKR_OK, some ([10, 20, 30].take 1200), min ([10, 20, 30] : List Nat).length 1200,
      CK_FALSE,
      [DeviceCmd.read (toUInt16 (strtol16 exampleCfg.certLabel)) 0 1200], 1⟩ :=
  ⟨by decide,
    getvalue_after_save_roundtrips exampleCfg [10, 20, 30] (fun _ => [])
      (by decide)⟩

end OptigaPAL
